import Mathlib

/-!
Shallow embedding of the `LiveAPIClient` from `src/lib/live-api-client.ts`
(remorses/live-api-web-console).

The TypeScript client is a stateful class; we embed it as explicit state
passing: every method becomes a pure function from a `ClientState` (plus the
method's arguments and, where the source calls `new Date()`, a `now : Nat`
timestamp) to a new `ClientState` together with a list of `Effect`s.  Effects
record the calls the client makes on its collaborators (the transport
`Session`, the `AudioStreamer` playback sink and the `AudioRecorder` capture
device) in the order the source issues them.

Base64 payloads inside model-turn parts are represented by their decoded
bytes (`List Nat`): `base64ToArrayBuffer` is a bijection between base64
strings and byte arrays, and the JS truthiness guard `if (b64)` on the base64
string corresponds to the decoded byte list being nonempty (only the empty
string decodes to an empty buffer).  Outbound realtime chunks keep their
base64 `data` as an opaque `String`, matching the source, which forwards the
string without decoding it.
-/

namespace LiveAPI

/-- The closed `LiveAPIEvent["type"]` enumeration from the source.  `open` and
`close` are Lean keywords, so those two constructors carry an `Evt` suffix. -/
inductive EventType where
  | openEvt
  | closeEvt
  | error
  | content
  | audio
  | toolcall
  | toolcallcancellation
  | interrupted
  | turncomplete
  | setupcomplete
  | clientSend
  | clientRealtimeInput
  | clientToolResponse
  deriving DecidableEq, Repr

/-- `inlineData` of a part: optional mime type, optional payload.  The payload
is modelled as its decoded bytes (see the file comment). -/
structure InlineData where
  mimeType : Option String
  data : Option (List Nat)
  deriving DecidableEq, Repr

/-- A `functionResponse` as carried inside a `Part`: `{response, id, name}`.
The `response` record is opaque to the client, modelled as a `String`. -/
structure FunctionResponse where
  response : String
  id : Option String
  name : Option String
  deriving DecidableEq, Repr

/-- A `FunctionCall` from the endpoint: `{name, id, args}`; `args` is opaque. -/
structure FunctionCall where
  id : Option String
  name : Option String
  args : String
  deriving DecidableEq, Repr

/-- A content `Part`: a record of optional fields, as in the `@google/genai`
SDK.  Only the fields the client inspects are modelled. -/
structure Part where
  text : Option String := none
  inlineData : Option InlineData := none
  functionResponse : Option FunctionResponse := none
  deriving DecidableEq, Repr

/-- The slice of `LiveConnectConfig` the client constructs by default.  The
client treats the config opaquely (it only stores and forwards it). -/
structure LiveConnectConfig where
  mediaResolution : String := "MEDIA_RESOLUTION_MEDIUM"
  triggerTokens : String := "25600"
  targetTokens : String := "12800"
  deriving DecidableEq, Repr

/-- The structured payloads the source attaches to log events (`data?: any`). -/
inductive EventData where
  | audioMeta (byteLength : Nat)
  | contentParts (parts : List Part)
  | toolCallData (functionCalls : Option (List FunctionCall))
  | cancellationData (ids : List String)
  | clientSendData (turns : List Part) (turnComplete : Bool)
  | realtimeMeta (mediaType : String)
  | toolResponseData (functionResponses : List FunctionResponse)
  | errorData (message : String)
  | closeData (reason : String)
  deriving DecidableEq, Repr

/-- A log entry: `{type, timestamp: new Date(), data}`. -/
structure LiveAPIEvent where
  type : EventType
  timestamp : Nat
  data : Option EventData
  deriving DecidableEq, Repr

/-- The `LiveAPIState` snapshot record.  Volume levels are opaque numbers. -/
structure LiveAPIState where
  connected : Bool
  muted : Bool
  inVolume : Nat
  outVolume : Nat
  events : List LiveAPIEvent
  model : String
  config : LiveConnectConfig
  deriving DecidableEq, Repr

/-- The whole client: the private `_state` plus the private `session` handle
(an opaque identifier; `none` = no live session). -/
structure ClientState where
  session : Option Nat
  state : LiveAPIState
  deriving DecidableEq, Repr

/-- The initial `_state` object of a freshly constructed client. -/
def initialState : ClientState :=
  { session := none
    state :=
      { connected := false
        muted := false
        inVolume := 0
        outVolume := 0
        events := []
        model := "models/gemini-2.5-flash-preview-native-audio-dialog"
        config := {} } }

/-- Calls the client makes on its collaborators, in source order. -/
inductive Effect where
  | sendClientContent (turns : List Part) (turnComplete : Bool)
  | sendRealtimeChunk (mimeType : String) (data : String)
  | sendToolResponse (functionResponses : List FunctionResponse)
  | sessionClose
  | streamerStop
  | streamerAddPCM16 (bytes : List Nat)
  | recorderStart
  | recorderStop
  deriving DecidableEq, Repr

/-- `addEvent(type, data)`: appends `{type, timestamp: new Date(), data}` to
`_state.events`; if the new array length exceeds 200, keeps only
`newEvents.slice(-150)` (the most recent 150). -/
def addEvent (c : ClientState) (type : EventType) (data : Option EventData)
    (now : Nat) : ClientState :=
  let event : LiveAPIEvent := { type := type, timestamp := now, data := data }
  let newEvents := c.state.events ++ [event]
  if newEvents.length > 200 then
    { c with state := { c.state with events := newEvents.drop (newEvents.length - 150) } }
  else
    { c with state := { c.state with events := newEvents } }

/-- JS `String.prototype.includes` on character lists: `sub` occurs as a
contiguous segment of `s` (the empty string is included in every string). -/
def charSegIncluded (sub : List Char) : List Char → Bool
  | [] => sub.isEmpty
  | ch :: tail => sub.isPrefixOf (ch :: tail) || charSegIncluded sub tail

/-- JS `s.includes(sub)`. -/
def strIncludes (s sub : String) : Bool :=
  charSegIncluded sub.toList s.toList

/-- JS `s.startsWith(p)`. -/
def strStartsWith (s p : String) : Bool :=
  p.toList.isPrefixOf s.toList

/-- The audio-part predicate of `onMessage`:
`p.inlineData && p.inlineData.mimeType?.startsWith("audio/pcm")`.
An absent `mimeType` makes the optional chain undefined, hence falsy. -/
def isAudioPart (p : Part) : Bool :=
  match p.inlineData with
  | none => false
  | some d =>
    match d.mimeType with
    | none => false
    | some m => strStartsWith m "audio/pcm"

/-- lodash `difference(xs, ys)`: the elements of `xs` not equal to any
element of `ys`, keeping order and duplicates of `xs`. -/
def listDifference (xs ys : List Part) : List Part :=
  xs.filter (fun x => ¬ ys.contains x)

/-- One requested append: the arguments of a single `addEvent` call. -/
structure AppendReq where
  type : EventType
  data : Option EventData
  now : Nat

/-- A sequence of `addEvent` calls, oldest first. -/
def addEvents (c : ClientState) (reqs : List AppendReq) : ClientState :=
  reqs.foldl (fun acc r => addEvent acc r.type r.data r.now) c

theorem addEvent_length_le (c : ClientState) (t : EventType) (d : Option EventData)
    (now : Nat) : (addEvent c t d now).state.events.length ≤ 200 := by
  unfold addEvent
  dsimp only
  split
  · simp only [List.length_drop]
    omega
  · next h =>
    simp only [not_lt] at h
    simpa using h

theorem addEvent_no_trim (c : ClientState) (t : EventType) (d : Option EventData)
    (now : Nat) (h : c.state.events.length ≤ 199) :
    (addEvent c t d now).state.events
      = c.state.events ++ [{ type := t, timestamp := now, data := d }] := by
  unfold addEvent
  dsimp only
  split
  · next hgt =>
    simp only [List.length_append, List.length_cons, List.length_nil] at hgt
    omega
  · rfl

theorem addEvents_length_le (c : ClientState) (reqs : List AppendReq)
    (h : c.state.events.length ≤ 200) :
    (addEvents c reqs).state.events.length ≤ 200 := by
  induction reqs generalizing c with
  | nil => simpa [addEvents] using h
  | cons r rs ih =>
      have : addEvents c (r :: rs) = addEvents (addEvent c r.type r.data r.now) rs := rfl
      rw [this]
      exact ih _ (addEvent_length_le c r.type r.data r.now)

/-- C1: starting from any state whose log respects the 200 bound (in
particular the empty initial log), every sequence of `addEvent` calls keeps
the log length ≤ 200; and on the single append that would make it exceed 200
(i.e. from a log of length exactly 200), the result is exactly the 150 most
recent entries in their original order: the 149 newest old entries followed
by the new one, total length 150. -/
theorem addEvent_ring_buffer (c : ClientState) (reqs : List AppendReq)
    (hc : c.state.events.length ≤ 200) :
    (addEvents c reqs).state.events.length ≤ 200 ∧
    (∀ (c' : ClientState) (t : EventType) (d : Option EventData) (now : Nat),
      c'.state.events.length = 200 →
      (addEvent c' t d now).state.events
          = c'.state.events.drop 51 ++ [{ type := t, timestamp := now, data := d }] ∧
      (addEvent c' t d now).state.events.length = 150) := by
  refine ⟨addEvents_length_le c reqs hc, ?_⟩
  intro c' t d now h200
  constructor
  · unfold addEvent
    dsimp only
    split
    · next hgt =>
      simp only [List.length_append, List.length_cons, List.length_nil, h200]
      have hdrop : (51 : Nat) ≤ c'.state.events.length := by omega
      rw [List.drop_append_of_le_length hdrop]
    · next hgt =>
      simp only [List.length_append, List.length_cons, List.length_nil] at hgt
      omega
  · unfold addEvent
    dsimp only
    split
    · simp only [List.length_drop, List.length_append, List.length_cons, List.length_nil, h200]
    · next hgt =>
      simp only [List.length_append, List.length_cons, List.length_nil] at hgt
      omega

/-- Witness for C1 at a concrete input: the empty initial log, one append;
and the trim clause at a log of exactly 200 entries. -/
theorem addEvent_ring_buffer_witness :
    (initialState.state.events.length ≤ 200) ∧
    ((addEvents initialState [⟨EventType.openEvt, none, 0⟩]).state.events.length ≤ 200 ∧
    (∀ (c' : ClientState) (t : EventType) (d : Option EventData) (now : Nat),
      c'.state.events.length = 200 →
      (addEvent c' t d now).state.events
          = c'.state.events.drop 51 ++ [{ type := t, timestamp := now, data := d }] ∧
      (addEvent c' t d now).state.events.length = 150)) :=
  ⟨by decide, addEvent_ring_buffer initialState [⟨EventType.openEvt, none, 0⟩] (by decide)⟩

/-- The per-chunk body of the `base64s.forEach` loop in `onMessage`:
for each `b64 = p.inlineData?.data`, if it is truthy, decode it, enqueue the
bytes on the playback sink (`audioStreamer?.addPCM16`) and log an `audio`
entry with the decoded `byteLength`.  `datas` is the list of optional decoded
payloads; `none` models an undefined `data` field and `some []` the empty
string, both falsy in JS. -/
def processAudio (c : ClientState) (datas : List (Option (List Nat)))
    (now : Nat) : ClientState × List Effect :=
  match datas with
  | [] => (c, [])
  | none :: rest => processAudio c rest now
  | some bs :: rest =>
    if bs = [] then processAudio c rest now
    else
      let c1 := addEvent c .audio (some (.audioMeta bs.length)) now
      let (c2, effs) := processAudio c1 rest now
      (c2, Effect.streamerAddPCM16 bs :: effs)

/-- The `"modelTurn" in serverContent` branch of `onMessage`: filter the audio
parts, play and log each truthy audio payload, strip the audio parts via
lodash `difference`, and log the remaining parts as one `content` entry when
any remain. -/
def processModelTurn (c : ClientState) (parts : List Part)
    (now : Nat) : ClientState × List Effect :=
  let audioParts := parts.filter isAudioPart
  let base64s := audioParts.map (fun p => p.inlineData.bind (fun d => d.data))
  let otherParts := listDifference parts audioParts
  let (c1, effs) := processAudio c base64s now
  if otherParts.length ≠ 0 then
    (addEvent c1 .content (some (.contentParts otherParts)) now, effs)
  else
    (c1, effs)

/-- `serverContent` as dispatched on: the `in` operator tests key presence,
so `interrupted` and `turnComplete` are booleans meaning "key present", and
`modelTurn = some parts` means the key is present with the given parts
(`modelTurn?.parts || []` collapses a missing parts array to `[]`). -/
structure ServerContent where
  interrupted : Bool
  turnComplete : Bool
  modelTurn : Option (List Part)
  deriving DecidableEq, Repr

/-- The `message.serverContent` branch of `onMessage`. -/
def handleServerContent (c : ClientState) (sc : ServerContent)
    (now : Nat) : ClientState × List Effect :=
  if sc.interrupted then
    (addEvent c .interrupted none now, [Effect.streamerStop])
  else
    let c1 := if sc.turnComplete then addEvent c .turncomplete none now else c
    match sc.modelTurn with
    | some parts => processModelTurn c1 parts now
    | none => (c1, [])

/-- A registered `CallableTool` capability provider: `callTool` receives the
whole batch of function calls and yields response-bearing parts, or fails
(a thrown exception, modelled as `Except.error`). -/
structure CallableTool where
  callTool : List FunctionCall → Except String (List Part)

/-- The `for (const tool of this.tools)` loop of `handleToolCalls`: each
provider is awaited in turn and its parts are appended; a failure aborts the
remaining providers (the source wraps the whole loop in one try/catch). -/
def collectParts (tools : List CallableTool) (functionCalls : List FunctionCall) :
    Except String (List Part) :=
  match tools with
  | [] => .ok []
  | t :: ts =>
    match t.callTool functionCalls with
    | .error e => .error e
    | .ok ps =>
      match collectParts ts functionCalls with
      | .error e => .error e
      | .ok rest => .ok (ps ++ rest)

/-- `handleToolCalls(functionCalls)`: no-op without a session or providers;
otherwise run every provider on the whole batch, keep the parts carrying a
`functionResponse`, and if any remain, send them as one tool-response message
and log one `client-toolResponse` entry.  A provider failure is caught and
logged as an `error` entry. -/
def handleToolCalls (tools : List CallableTool) (c : ClientState)
    (functionCalls : List FunctionCall) (now : Nat) : ClientState × List Effect :=
  match c.session with
  | none => (c, [])
  | some _ =>
    if tools.length = 0 then (c, [])
    else
      match collectParts tools functionCalls with
      | .error _ => (addEvent c .error (some (.errorData "Tool call failed")) now, [])
      | .ok responseParts =>
        if responseParts.length > 0 then
          let functionResponses := responseParts.filterMap (fun p => p.functionResponse)
          if functionResponses.length > 0 then
            (addEvent c .clientToolResponse (some (.toolResponseData functionResponses)) now,
             [Effect.sendToolResponse functionResponses])
          else (c, [])
        else (c, [])

/-- An inbound `LiveServerMessage`.  `setupComplete` is presence of the setup
acknowledgement; `toolCall = some fcs` means the message carries a tool call
whose optional `functionCalls` array is `fcs` (`some []` is a present empty
array, still truthy in JS). -/
structure LiveServerMessage where
  setupComplete : Bool
  toolCall : Option (Option (List FunctionCall))
  toolCallCancellation : Option (List String)
  serverContent : Option ServerContent
  deriving DecidableEq, Repr

/-- `onMessage(message)`: the single inbound dispatch function, branching in
source order (setupComplete, toolCall, toolCallCancellation, serverContent);
first match wins and returns. -/
def onMessage (tools : List CallableTool) (c : ClientState)
    (message : LiveServerMessage) (now : Nat) : ClientState × List Effect :=
  if message.setupComplete then
    (addEvent c .setupcomplete none now, [])
  else
    match message.toolCall with
    | some fcs =>
      let c1 := addEvent c .toolcall (some (.toolCallData fcs)) now
      match fcs with
      | some calls =>
        if tools.length > 0 then handleToolCalls tools c1 calls now else (c1, [])
      | none => (c1, [])
    | none =>
      match message.toolCallCancellation with
      | some ids => (addEvent c .toolcallcancellation (some (.cancellationData ids)) now, [])
      | none =>
        match message.serverContent with
        | some sc => handleServerContent c sc now
        | none => (c, [])

/-- `setConnected(value)`: update the flag, then start capture when connected
and unmuted, stop it otherwise. -/
def setConnected (c : ClientState) (value : Bool) : ClientState × List Effect :=
  let c1 := { c with state := { c.state with connected := value } }
  if value && !c1.state.muted then (c1, [Effect.recorderStart])
  else (c1, [Effect.recorderStop])

/-- The transport `onopen` callback: `setConnected(true)` then log `open`. -/
def onOpen (c : ClientState) (now : Nat) : ClientState × List Effect :=
  let (c1, effs) := setConnected c true
  (addEvent c1 .openEvt none now, effs)

/-- The transport `onclose` callback: `setConnected(false)` then log `close`
with the close reason. -/
def onClose (c : ClientState) (reason : String) (now : Nat) : ClientState × List Effect :=
  let (c1, effs) := setConnected c false
  (addEvent c1 .closeEvt (some (.closeData reason)) now, effs)

/-- JS `a || b` for an optional string argument: keeps the default when the
argument is absent or the empty string (both falsy). -/
def jsOrString (a : Option String) (b : String) : String :=
  match a with
  | none => b
  | some s => if s = "" then b else s

/-- `connect(model?, config?)` as one atomic step.  `outcome` is the result
of `await this.client.live.connect(...)`: `some handle` on success, `none`
when the transport throws.  Returns the new client, the boolean result and
the effects.  (The `onopen` callback, which flips `connected` and logs
`open`, is fired by the transport and modelled separately as `onOpen`.) -/
def connect (c : ClientState) (outcome : Option Nat) (model : Option String)
    (config : Option LiveConnectConfig) (now : Nat) :
    ClientState × Bool × List Effect :=
  if c.state.connected then (c, false, [])
  else
    let c1 := { c with state :=
      { c.state with
          model := jsOrString model c.state.model
          config := config.getD c.state.config } }
    match outcome with
    | none => (addEvent c1 .error (some (.errorData "Failed to connect")) now, false, [])
    | some h => ({ c1 with session := some h }, true, [])

/-- `disconnect()`: `false` without a session; otherwise close and drop the
handle, `setConnected(false)`, stop capture and playback, log the closure. -/
def disconnect (c : ClientState) (now : Nat) : ClientState × Bool × List Effect :=
  match c.session with
  | none => (c, false, [])
  | some _ =>
    let (c1, effs) := setConnected { c with session := none } false
    let c2 := addEvent c1 .closeEvt (some (.closeData "User disconnected")) now
    (c2, true, Effect.sessionClose :: effs ++ [Effect.recorderStop, Effect.streamerStop])

/-- `setMuted(muted)`: update the flag; only when connected, stop or start
capture to match. -/
def setMuted (c : ClientState) (muted : Bool) : ClientState × List Effect :=
  let c1 := { c with state := { c.state with muted := muted } }
  if c1.state.connected then
    if muted then (c1, [Effect.recorderStop]) else (c1, [Effect.recorderStart])
  else (c1, [])

/-- `sendText(text, turnComplete = true)`: silent no-op without a session;
otherwise send one text part as client content and log it. -/
def sendText (c : ClientState) (text : String) (turnComplete : Bool)
    (now : Nat) : ClientState × List Effect :=
  match c.session with
  | none => (c, [])
  | some _ =>
    let parts : List Part := [{ text := some text }]
    (addEvent c .clientSend (some (.clientSendData parts turnComplete)) now,
     [Effect.sendClientContent parts turnComplete])

/-- An outbound realtime chunk `{mimeType, data}` (base64 data, opaque). -/
structure MediaChunk where
  mimeType : String
  data : String
  deriving DecidableEq, Repr

/-- The post-hoc batch classification of `sendRealtimeInput`: `hasAudio` when
some mime type contains `"audio"`, `hasVideo` when some contains `"image"`. -/
def classifyChunks (chunks : List MediaChunk) : String :=
  let hasAudio := chunks.any (fun ch => strIncludes ch.mimeType "audio")
  let hasVideo := chunks.any (fun ch => strIncludes ch.mimeType "image")
  if hasAudio && hasVideo then "audio+video"
  else if hasAudio then "audio"
  else if hasVideo then "video"
  else "unknown"

/-- `sendRealtimeInput(chunks)`: silent no-op without a session; otherwise
forward each chunk individually, then append one summarizing
`client-realtimeInput` entry with the batch classification. -/
def sendRealtimeInput (c : ClientState) (chunks : List MediaChunk)
    (now : Nat) : ClientState × List Effect :=
  match c.session with
  | none => (c, [])
  | some _ =>
    (addEvent c .clientRealtimeInput (some (.realtimeMeta (classifyChunks chunks))) now,
     chunks.map (fun ch => Effect.sendRealtimeChunk ch.mimeType ch.data))

/-- The `audioRecorder.on("data")` callback wired in `setupAudioRecorder`:
forward the captured frame as one `audio/pcm;rate=16000` realtime chunk only
when connected and unmuted. -/
def onAudioData (c : ClientState) (base64 : String) (now : Nat) :
    ClientState × List Effect :=
  if c.state.connected && !c.state.muted then
    sendRealtimeInput c [{ mimeType := "audio/pcm;rate=16000", data := base64 }] now
  else (c, [])

/-- `getState()`: `{...this._state}` — in value semantics just the snapshot
record (the aliasing consequences of the JS shallow copy are modelled
separately in the `RefModel` namespace below). -/
def getState (c : ClientState) : LiveAPIState :=
  c.state

/-- A client as it stands right after a successful `connect` and the
transport's `onopen` callback: live session handle, `connected = true`. -/
def connectedClient : ClientState :=
  { initialState with
    session := some 0
    state := { initialState.state with connected := true } }

/-- The client mid-connection: the state reached from `initialState` once
`connect` has installed the session handle but before the transport's
`onopen` callback has fired — the "Connecting" window.  Here
`session = some 0` while `connected` is still `false`, since only `onOpen`
raises the flag. -/
def connectingClient : ClientState :=
  (connect initialState (some 0) none none 0).1

/-- A server-content payload with the `interrupted` key present that also
carries `turnComplete` and a model turn (used as a concrete input). -/
def interruptedContent : ServerContent :=
  { interrupted := true
    turnComplete := true
    modelTurn := some [{ text := some "ignored" }] }

/-- The inbound message wrapping `interruptedContent`. -/
def interruptedMsg : LiveServerMessage :=
  { setupComplete := false
    toolCall := none
    toolCallCancellation := none
    serverContent := some interruptedContent }

/-- An inline raw-PCM audio part whose decoded payload is `bs`. -/
def audioPart (bs : List Nat) : Part :=
  { inlineData := some { mimeType := some "audio/pcm;rate=24000", data := some bs } }

/-- A plain text part. -/
def textPart (s : String) : Part :=
  { text := some s }

/-- An inbound message whose server content is a model turn with `parts`
(no `interrupted`, no `turnComplete`). -/
def modelTurnMsg (parts : List Part) : LiveServerMessage :=
  { setupComplete := false
    toolCall := none
    toolCallCancellation := none
    serverContent := some { interrupted := false, turnComplete := false, modelTurn := some parts } }

/-- An inbound tool-call message carrying the function calls `fcs`. -/
def toolCallMsg (fcs : List FunctionCall) : LiveServerMessage :=
  { setupComplete := false
    toolCall := some (some fcs)
    toolCallCancellation := none
    serverContent := none }

/-- A provider that recognizes every call: it answers each function call in
the batch with one function-response part echoing the call's id and name. -/
def echoTool : CallableTool :=
  { callTool := fun calls =>
      .ok (calls.map (fun fc =>
        { functionResponse := some { response := "ok", id := fc.id, name := fc.name } })) }

namespace RefModel

/-!
Reference semantics of the state snapshot, for the aliasing behaviour of
`getState()` (`return {...this._state}`) and the `events` getter
(`return this._state.events`).  JS arrays are heap objects handed around by
reference; the spread operator copies the record's fields, so the scalar
fields are copied by value while `events` is copied as a reference to the
same array.  We model the heap of arrays explicitly: a reference is an index
into `Heap.arrays`.
-/

/-- The heap of live JS arrays of log entries; a reference is an index. -/
structure Heap where
  arrays : List (List LiveAPIEvent)
  deriving DecidableEq, Repr

/-- Dereference an array. -/
def readRef (h : Heap) (r : Nat) : List LiveAPIEvent :=
  h.arrays.getD r []

/-- An external, in-place `snapshot.events.push(e)` through a reference. -/
def pushRef (h : Heap) (r : Nat) (e : LiveAPIEvent) : Heap :=
  { arrays := h.arrays.set r (readRef h r ++ [e]) }

/-- The `_state` record with `events` as an array reference. -/
structure StateSnapshot where
  connected : Bool
  muted : Bool
  inVolume : Nat
  outVolume : Nat
  eventsRef : Nat
  model : String
  config : LiveConnectConfig
  deriving DecidableEq, Repr

/-- The client: private `session` and private `_state`. -/
structure RefClient where
  session : Option Nat
  stateRef : StateSnapshot
  deriving DecidableEq, Repr

/-- `getState()`: `{...this._state}` — a copy of the record; its `eventsRef`
field is the same reference as the internal one (shallow copy). -/
def getStateRef (c : RefClient) : StateSnapshot :=
  c.stateRef

/-- The `events` getter: `return this._state.events` — the internal array
reference itself. -/
def eventsGetter (c : RefClient) : Nat :=
  c.stateRef.eventsRef

/-- The log as the client reads it internally. -/
def internalEvents (h : Heap) (c : RefClient) : List LiveAPIEvent :=
  readRef h c.stateRef.eventsRef

/-- The append step of `addEvent` in reference semantics:
`[...this._state.events, event]` allocates a fresh array and `updateState`
repoints `_state.events` at it; the previously shared array object is not
mutated.  (The over-capacity trim is orthogonal to aliasing and elided.) -/
def addEventRef (h : Heap) (c : RefClient) (e : LiveAPIEvent) : Heap × RefClient :=
  let fresh := h.arrays.length
  ({ arrays := h.arrays ++ [internalEvents h c ++ [e]] },
   { c with stateRef := { c.stateRef with eventsRef := fresh } })

/-- A concrete heap holding one empty log array at reference 0. -/
def heap0 : Heap :=
  { arrays := [[]] }

/-- A concrete client whose log lives at reference 0. -/
def client0 : RefClient :=
  { session := none
    stateRef :=
      { connected := false, muted := false, inVolume := 0, outVolume := 0,
        eventsRef := 0, model := "m", config := {} } }

/-- A probe entry an external consumer might push. -/
def probeEvent : LiveAPIEvent :=
  { type := .openEvt, timestamp := 1, data := none }

end RefModel

@[simp]
theorem addEvent_session (c : ClientState) (t : EventType) (d : Option EventData)
    (now : Nat) : (addEvent c t d now).session = c.session := by
  unfold addEvent
  dsimp only
  split <;> rfl

@[simp]
theorem addEvent_connected (c : ClientState) (t : EventType) (d : Option EventData)
    (now : Nat) : (addEvent c t d now).state.connected = c.state.connected := by
  unfold addEvent
  dsimp only
  split <;> rfl

@[simp]
theorem addEvent_muted (c : ClientState) (t : EventType) (d : Option EventData)
    (now : Nat) : (addEvent c t d now).state.muted = c.state.muted := by
  unfold addEvent
  dsimp only
  split <;> rfl

/-- C4: an inbound `serverContent` message carrying the `interrupted` signal
logs exactly one `interrupted` entry and stops the playback sink, and that is
all: no `content`, `audio` or `turncomplete` entries, no audio enqueued, and
no session change — even when the same message also carries `turnComplete` or
`modelTurn` parts (`sc` is arbitrary apart from `interrupted`). -/
theorem interrupted_sole_effect (tools : List CallableTool) (c : ClientState)
    (sc : ServerContent) (now : Nat) (hi : sc.interrupted = true)
    (hlen : c.state.events.length ≤ 199) :
    (onMessage tools c
        { setupComplete := false, toolCall := none, toolCallCancellation := none,
          serverContent := some sc } now).1.state.events
      = c.state.events ++ [{ type := .interrupted, timestamp := now, data := none }] ∧
    (onMessage tools c
        { setupComplete := false, toolCall := none, toolCallCancellation := none,
          serverContent := some sc } now).2 = [Effect.streamerStop] ∧
    (onMessage tools c
        { setupComplete := false, toolCall := none, toolCallCancellation := none,
          serverContent := some sc } now).1.session = c.session := by
  have hmsg : onMessage tools c
      { setupComplete := false, toolCall := none, toolCallCancellation := none,
        serverContent := some sc } now = handleServerContent c sc now := rfl
  have hstep : handleServerContent c sc now
      = (addEvent c .interrupted none now, [Effect.streamerStop]) := by
    unfold handleServerContent
    rw [hi]
    rfl
  rw [hmsg, hstep]
  exact ⟨addEvent_no_trim c .interrupted none now hlen, rfl,
    addEvent_session c .interrupted none now⟩

/-- Witness for C4: a server-content message with `interrupted` present that
also carries `turnComplete` and a model turn, on the initial client. -/
theorem interrupted_sole_effect_witness :
    (interruptedContent.interrupted = true ∧
      initialState.state.events.length ≤ 199) ∧
    ((onMessage [] initialState interruptedMsg 7).1.state.events
      = initialState.state.events ++ [{ type := .interrupted, timestamp := 7, data := none }] ∧
    (onMessage [] initialState interruptedMsg 7).2 = [Effect.streamerStop] ∧
    (onMessage [] initialState interruptedMsg 7).1.session = initialState.session) :=
  ⟨⟨rfl, by decide⟩,
   interrupted_sole_effect [] initialState interruptedContent 7 rfl (by decide)⟩

/-- C5 counterexample: the claim also covers the Connecting state, but the
source's guard is only `if (this.connected)`, and `connected` is raised by
`onOpen` alone.  In the Connecting window — reachable from `initialState` by
one `connect` whose `onopen` has not yet fired, so `session = some 0` and
`connected = false` — a second `connect()` passes the guard, returns `true`
(not `false`) and installs a new session handle `some 1`, replacing the live
one: two session handles were created. -/
theorem connect_while_connecting_counterexample :
    connectingClient.session = some 0 ∧
    connectingClient.state.connected = false ∧
    (connect connectingClient (some 1) none none 1).2.1 = true ∧
    (connect connectingClient (some 1) none none 1).1.session = some 1 := by
  decide

/-- C5 (amended): `connect()` invoked while already Connected
(`connected = true`) returns `false` and changes nothing: same session handle
(no new one is created) and same log (no duplicate `open` entry), with no
collaborator calls.  (While merely Connecting the guard does not fire; see
the counterexample.) -/
theorem connect_while_connected (c : ClientState) (outcome : Option Nat)
    (model : Option String) (config : Option LiveConnectConfig) (now : Nat)
    (h : c.state.connected = true) :
    connect c outcome model config now = (c, false, []) := by
  unfold connect
  rw [h]
  simp

/-- Witness for C5: a connected client with a live session handle. -/
theorem connect_while_connected_witness :
    connectedClient.state.connected = true ∧
    connect connectedClient (some 1) none none 3 = (connectedClient, false, []) :=
  ⟨rfl, connect_while_connected connectedClient (some 1) none none 3 rfl⟩

/-- C6: with no session handle, `disconnect()` returns `false` with no state
mutation, and `sendText`, `sendRealtimeInput` and the tool-response send
(`handleToolCalls`) are silent no-ops: unchanged state, no transport sends,
no log entries, no collaborator calls (all are total functions, so none
throws). -/
theorem no_session_noops (c : ClientState) (now : Nat) (text : String)
    (turnComplete : Bool) (chunks : List MediaChunk) (tools : List CallableTool)
    (functionCalls : List FunctionCall) (h : c.session = none) :
    disconnect c now = (c, false, []) ∧
    sendText c text turnComplete now = (c, []) ∧
    sendRealtimeInput c chunks now = (c, []) ∧
    handleToolCalls tools c functionCalls now = (c, []) := by
  unfold disconnect sendText sendRealtimeInput handleToolCalls
  rw [h]
  exact ⟨rfl, rfl, rfl, rfl⟩

/-- Witness for C6: the freshly constructed client has no session. -/
theorem no_session_noops_witness :
    initialState.session = none ∧
    (disconnect initialState 5 = (initialState, false, []) ∧
    sendText initialState "hi" true 5 = (initialState, []) ∧
    sendRealtimeInput initialState [{ mimeType := "audio/pcm;rate=16000", data := "AA" }] 5
      = (initialState, []) ∧
    handleToolCalls [] initialState [{ id := some "1", name := some "f", args := "" }] 5
      = (initialState, [])) :=
  ⟨rfl, no_session_noops initialState 5 "hi" true
    [{ mimeType := "audio/pcm;rate=16000", data := "AA" }] []
    [{ id := some "1", name := some "f", args := "" }] rfl⟩

/-- C8: `setMuted(m)` while connected changes only the `muted` field —
`connected` stays `true`, the session handle is untouched (never closed), and
the log, model, config and volume levels are unchanged — and the only
collaborator call is stopping capture (`m = true`) or starting it
(`m = false`). -/
theorem setMuted_frame (c : ClientState) (m : Bool) (h : c.state.connected = true) :
    (setMuted c m).1.state.muted = m ∧
    (setMuted c m).1.state.connected = c.state.connected ∧
    (setMuted c m).1.session = c.session ∧
    (setMuted c m).1.state.events = c.state.events ∧
    (setMuted c m).1.state.model = c.state.model ∧
    (setMuted c m).1.state.config = c.state.config ∧
    (setMuted c m).1.state.inVolume = c.state.inVolume ∧
    (setMuted c m).1.state.outVolume = c.state.outVolume ∧
    (setMuted c m).2 = (if m then [Effect.recorderStop] else [Effect.recorderStart]) := by
  unfold setMuted
  dsimp only
  rw [h]
  cases m <;> simp

/-- Witness for C8: muting a connected, unmuted client. -/
theorem setMuted_frame_witness :
    connectedClient.state.connected = true ∧
    ((setMuted connectedClient true).1.state.muted = true ∧
      (setMuted connectedClient true).1.state.connected = connectedClient.state.connected ∧
      (setMuted connectedClient true).1.session = connectedClient.session ∧
      (setMuted connectedClient true).1.state.events = connectedClient.state.events ∧
      (setMuted connectedClient true).1.state.model = connectedClient.state.model ∧
      (setMuted connectedClient true).1.state.config = connectedClient.state.config ∧
      (setMuted connectedClient true).1.state.inVolume = connectedClient.state.inVolume ∧
      (setMuted connectedClient true).1.state.outVolume = connectedClient.state.outVolume ∧
      (setMuted connectedClient true).2
        = (if true then [Effect.recorderStop] else [Effect.recorderStart])) :=
  ⟨rfl, setMuted_frame connectedClient true rfl⟩

/-- C7: with an active session, `sendRealtimeInput(chunks)` forwards every
chunk individually over the transport and appends exactly one summarizing log
entry whose classification follows the media-type substrings: `"audio+video"`
when both an `"audio"` and an `"image"` mime type occur, `"audio"` or
`"video"` when only one kind occurs, `"unknown"` otherwise; in particular a
batch of one `audio/pcm` chunk and one `image/jpeg` chunk is classified
`"audio+video"`. -/
theorem sendRealtimeInput_batch (c : ClientState) (chunks : List MediaChunk)
    (now : Nat) (h : c.session.isSome = true) (hlen : c.state.events.length ≤ 199) :
    (sendRealtimeInput c chunks now).2
      = chunks.map (fun ch => Effect.sendRealtimeChunk ch.mimeType ch.data) ∧
    (sendRealtimeInput c chunks now).1.state.events
      = c.state.events ++ [{ type := .clientRealtimeInput, timestamp := now, data := some (.realtimeMeta (classifyChunks chunks)) }] ∧
    (chunks.any (fun ch => strIncludes ch.mimeType "audio") = true →
      chunks.any (fun ch => strIncludes ch.mimeType "image") = true →
      classifyChunks chunks = "audio+video") ∧
    (chunks.any (fun ch => strIncludes ch.mimeType "audio") = true →
      chunks.any (fun ch => strIncludes ch.mimeType "image") = false →
      classifyChunks chunks = "audio") ∧
    (chunks.any (fun ch => strIncludes ch.mimeType "audio") = false →
      chunks.any (fun ch => strIncludes ch.mimeType "image") = true →
      classifyChunks chunks = "video") ∧
    (chunks.any (fun ch => strIncludes ch.mimeType "audio") = false →
      chunks.any (fun ch => strIncludes ch.mimeType "image") = false →
      classifyChunks chunks = "unknown") ∧
    (∀ d1 d2 : String,
      classifyChunks [{ mimeType := "audio/pcm;rate=16000", data := d1 },
        { mimeType := "image/jpeg", data := d2 }] = "audio+video") := by
  obtain ⟨s, hs⟩ := Option.isSome_iff_exists.mp h
  have hsend : sendRealtimeInput c chunks now
      = (addEvent c .clientRealtimeInput (some (.realtimeMeta (classifyChunks chunks))) now,
         chunks.map (fun ch => Effect.sendRealtimeChunk ch.mimeType ch.data)) := by
    unfold sendRealtimeInput
    rw [hs]
  refine ⟨by rw [hsend], ?_, ?_, ?_, ?_, ?_, ?_⟩
  · rw [hsend]
    exact addEvent_no_trim c .clientRealtimeInput
      (some (.realtimeMeta (classifyChunks chunks))) now hlen
  · intro ha hv
    simp [classifyChunks, ha, hv]
  · intro ha hv
    simp [classifyChunks, ha, hv]
  · intro ha hv
    simp [classifyChunks, ha, hv]
  · intro ha hv
    simp [classifyChunks, ha, hv]
  · intro d1 d2
    rfl

/-- Witness for C7: a connected client sending one audio and one image chunk. -/
theorem sendRealtimeInput_batch_witness :
    (connectedClient.session.isSome = true ∧ connectedClient.state.events.length ≤ 199) ∧
    ((sendRealtimeInput connectedClient
        [{ mimeType := "audio/pcm;rate=16000", data := "AA" },
         { mimeType := "image/jpeg", data := "BB" }] 4).2
      = ([{ mimeType := "audio/pcm;rate=16000", data := "AA" },
          { mimeType := "image/jpeg", data := "BB" }] : List MediaChunk).map
          (fun ch => Effect.sendRealtimeChunk ch.mimeType ch.data) ∧
    (sendRealtimeInput connectedClient
        [{ mimeType := "audio/pcm;rate=16000", data := "AA" },
         { mimeType := "image/jpeg", data := "BB" }] 4).1.state.events
      = connectedClient.state.events ++ [{ type := .clientRealtimeInput, timestamp := 4, data := some (.realtimeMeta (classifyChunks [{ mimeType := "audio/pcm;rate=16000", data := "AA" }, { mimeType := "image/jpeg", data := "BB" }])) }] ∧
    (([{ mimeType := "audio/pcm;rate=16000", data := "AA" },
        { mimeType := "image/jpeg", data := "BB" }] : List MediaChunk).any
          (fun ch => strIncludes ch.mimeType "audio") = true →
      ([{ mimeType := "audio/pcm;rate=16000", data := "AA" },
        { mimeType := "image/jpeg", data := "BB" }] : List MediaChunk).any
          (fun ch => strIncludes ch.mimeType "image") = true →
      classifyChunks [{ mimeType := "audio/pcm;rate=16000", data := "AA" },
        { mimeType := "image/jpeg", data := "BB" }] = "audio+video") ∧
    (([{ mimeType := "audio/pcm;rate=16000", data := "AA" },
        { mimeType := "image/jpeg", data := "BB" }] : List MediaChunk).any
          (fun ch => strIncludes ch.mimeType "audio") = true →
      ([{ mimeType := "audio/pcm;rate=16000", data := "AA" },
        { mimeType := "image/jpeg", data := "BB" }] : List MediaChunk).any
          (fun ch => strIncludes ch.mimeType "image") = false →
      classifyChunks [{ mimeType := "audio/pcm;rate=16000", data := "AA" },
        { mimeType := "image/jpeg", data := "BB" }] = "audio") ∧
    (([{ mimeType := "audio/pcm;rate=16000", data := "AA" },
        { mimeType := "image/jpeg", data := "BB" }] : List MediaChunk).any
          (fun ch => strIncludes ch.mimeType "audio") = false →
      ([{ mimeType := "audio/pcm;rate=16000", data := "AA" },
        { mimeType := "image/jpeg", data := "BB" }] : List MediaChunk).any
          (fun ch => strIncludes ch.mimeType "image") = true →
      classifyChunks [{ mimeType := "audio/pcm;rate=16000", data := "AA" },
        { mimeType := "image/jpeg", data := "BB" }] = "video") ∧
    (([{ mimeType := "audio/pcm;rate=16000", data := "AA" },
        { mimeType := "image/jpeg", data := "BB" }] : List MediaChunk).any
          (fun ch => strIncludes ch.mimeType "audio") = false →
      ([{ mimeType := "audio/pcm;rate=16000", data := "AA" },
        { mimeType := "image/jpeg", data := "BB" }] : List MediaChunk).any
          (fun ch => strIncludes ch.mimeType "image") = false →
      classifyChunks [{ mimeType := "audio/pcm;rate=16000", data := "AA" },
        { mimeType := "image/jpeg", data := "BB" }] = "unknown") ∧
    (∀ d1 d2 : String,
      classifyChunks [{ mimeType := "audio/pcm;rate=16000", data := d1 },
        { mimeType := "image/jpeg", data := d2 }] = "audio+video")) :=
  ⟨⟨rfl, by decide⟩,
   sendRealtimeInput_batch connectedClient
     [{ mimeType := "audio/pcm;rate=16000", data := "AA" },
      { mimeType := "image/jpeg", data := "BB" }] 4 rfl (by decide)⟩

/-- C10: a captured microphone frame is forwarded as one realtime-input
message (with its single summarizing `audio` log entry) exactly when the
client is connected and unmuted at that moment; otherwise the frame is
dropped with no state change, no transport send and no log entry.  The
hypothesis ties the `connected` flag to the session handle, which holds of
every reachable state (the flag is only raised by `onOpen` after `connect`
installs a handle). -/
theorem mic_frame_gating (c : ClientState) (b64 : String) (now : Nat)
    (hsess : c.state.connected = true → c.session.isSome = true)
    (hlen : c.state.events.length ≤ 199) :
    ((c.state.connected = true ∧ c.state.muted = false) →
      (onAudioData c b64 now).2
        = [Effect.sendRealtimeChunk "audio/pcm;rate=16000" b64] ∧
      (onAudioData c b64 now).1.state.events
        = c.state.events ++ [{ type := .clientRealtimeInput, timestamp := now, data := some (.realtimeMeta "audio") }]) ∧
    (¬(c.state.connected = true ∧ c.state.muted = false) →
      onAudioData c b64 now = (c, [])) := by
  constructor
  · rintro ⟨hc, hm⟩
    obtain ⟨s, hs⟩ := Option.isSome_iff_exists.mp (hsess hc)
    have hcond : onAudioData c b64 now
        = sendRealtimeInput c [{ mimeType := "audio/pcm;rate=16000", data := b64 }] now := by
      unfold onAudioData
      rw [hc, hm]
      rfl
    have hsend : sendRealtimeInput c [{ mimeType := "audio/pcm;rate=16000", data := b64 }] now
        = (addEvent c .clientRealtimeInput (some (.realtimeMeta "audio")) now,
           [Effect.sendRealtimeChunk "audio/pcm;rate=16000" b64]) := by
      unfold sendRealtimeInput
      rw [hs]
      rfl
    rw [hcond, hsend]
    exact ⟨rfl, addEvent_no_trim c .clientRealtimeInput (some (.realtimeMeta "audio")) now hlen⟩
  · intro hn
    have hcond : (c.state.connected && !c.state.muted) = false := by
      cases hcc : c.state.connected <;> cases hmm : c.state.muted <;> simp_all
    unfold onAudioData
    rw [hcond]
    rfl

/-- Witness for C10: both branches at concrete clients — a connected unmuted
client forwards the frame; the disconnected initial client drops it. -/
theorem mic_frame_gating_witness :
    ((connectedClient.state.connected = true → connectedClient.session.isSome = true) ∧
      connectedClient.state.events.length ≤ 199) ∧
    (((connectedClient.state.connected = true ∧ connectedClient.state.muted = false) →
      (onAudioData connectedClient "QUJD" 9).2
        = [Effect.sendRealtimeChunk "audio/pcm;rate=16000" "QUJD"] ∧
      (onAudioData connectedClient "QUJD" 9).1.state.events
        = connectedClient.state.events ++ [{ type := .clientRealtimeInput, timestamp := 9, data := some (.realtimeMeta "audio") }]) ∧
    (¬(connectedClient.state.connected = true ∧ connectedClient.state.muted = false) →
      onAudioData connectedClient "QUJD" 9 = (connectedClient, []))) ∧
    ((initialState.state.connected = true → initialState.session.isSome = true) →
      onAudioData initialState "QUJD" 9 = (initialState, [])) :=
  ⟨⟨fun _ => rfl, by decide⟩,
   mic_frame_gating connectedClient "QUJD" 9 (fun _ => rfl) (by decide),
   fun hp => (mic_frame_gating initialState "QUJD" 9 hp (by decide)).2 (by decide)⟩

/-- C2: dispatching a `serverContent` message whose model turn has parts
`[audioPCM, text, audioPCM]` appends exactly two `audio` log entries carrying
the decoded byte length of each audio chunk, followed by exactly one
`content` entry containing only the text part, in that order; the audio bytes
themselves go only to the playback sink, never into the log. -/
theorem modelTurn_audio_text_audio (tools : List CallableTool) (c : ClientState)
    (now : Nat) (b1 b2 : List Nat) (txt : String)
    (h1 : b1 ≠ []) (h2 : b2 ≠ []) (hlen : c.state.events.length ≤ 197) :
    (onMessage tools c (modelTurnMsg [audioPart b1, textPart txt, audioPart b2]) now).1.state.events
      = c.state.events ++
        [{ type := .audio, timestamp := now, data := some (.audioMeta b1.length) },
         { type := .audio, timestamp := now, data := some (.audioMeta b2.length) },
         { type := .content, timestamp := now, data := some (.contentParts [textPart txt]) }] ∧
    (onMessage tools c (modelTurnMsg [audioPart b1, textPart txt, audioPart b2]) now).2
      = [Effect.streamerAddPCM16 b1, Effect.streamerAddPCM16 b2] := by
  have hred : onMessage tools c (modelTurnMsg [audioPart b1, textPart txt, audioPart b2]) now
      = processModelTurn c [audioPart b1, textPart txt, audioPart b2] now := rfl
  have hfil : List.filter isAudioPart [audioPart b1, textPart txt, audioPart b2]
      = [audioPart b1, audioPart b2] := rfl
  have hdiff : listDifference [audioPart b1, textPart txt, audioPart b2]
      [audioPart b1, audioPart b2] = [textPart txt] := by
    unfold listDifference
    simp [audioPart, textPart, List.filter]
  have hpa : processAudio c [some b1, some b2] now
      = (addEvent (addEvent c .audio (some (.audioMeta b1.length)) now)
          .audio (some (.audioMeta b2.length)) now,
         [Effect.streamerAddPCM16 b1, Effect.streamerAddPCM16 b2]) := by
    simp [processAudio, h1, h2]
  have hmt : processModelTurn c [audioPart b1, textPart txt, audioPart b2] now
      = (addEvent (addEvent (addEvent c .audio (some (.audioMeta b1.length)) now)
            .audio (some (.audioMeta b2.length)) now)
          .content (some (.contentParts [textPart txt])) now,
         [Effect.streamerAddPCM16 b1, Effect.streamerAddPCM16 b2]) := by
    unfold processModelTurn
    rw [hfil]
    dsimp only
    rw [hdiff]
    have hbase : List.map (fun p => p.inlineData.bind fun d => d.data)
        [audioPart b1, audioPart b2] = [some b1, some b2] := rfl
    rw [hbase, hpa]
    simp
  rw [hred, hmt]
  have hA1 : (addEvent c .audio (some (.audioMeta b1.length)) now).state.events
      = c.state.events ++ [{ type := .audio, timestamp := now, data := some (.audioMeta b1.length) }] :=
    addEvent_no_trim c .audio (some (.audioMeta b1.length)) now (by omega)
  have hA2 : (addEvent (addEvent c .audio (some (.audioMeta b1.length)) now)
        .audio (some (.audioMeta b2.length)) now).state.events
      = c.state.events ++
        [{ type := .audio, timestamp := now, data := some (.audioMeta b1.length) },
         { type := .audio, timestamp := now, data := some (.audioMeta b2.length) }] := by
    rw [addEvent_no_trim _ .audio (some (.audioMeta b2.length)) now (by rw [hA1]; simp; omega), hA1]
    simp
  have hA3 : (addEvent (addEvent (addEvent c .audio (some (.audioMeta b1.length)) now)
          .audio (some (.audioMeta b2.length)) now)
        .content (some (.contentParts [textPart txt])) now).state.events
      = c.state.events ++
        [{ type := .audio, timestamp := now, data := some (.audioMeta b1.length) },
         { type := .audio, timestamp := now, data := some (.audioMeta b2.length) },
         { type := .content, timestamp := now, data := some (.contentParts [textPart txt]) }] := by
    rw [addEvent_no_trim _ .content (some (.contentParts [textPart txt])) now (by rw [hA2]; simp; omega), hA2]
    simp
  exact ⟨hA3, rfl⟩

/-- Witness for C2: concrete nonempty audio payloads around `text "hello"`
on the initial client. -/
theorem modelTurn_audio_text_audio_witness :
    ([1, 2] ≠ ([] : List Nat) ∧ [3] ≠ ([] : List Nat) ∧
      initialState.state.events.length ≤ 197) ∧
    ((onMessage [] initialState (modelTurnMsg [audioPart [1, 2], textPart "hello", audioPart [3]]) 6).1.state.events
      = initialState.state.events ++
        [{ type := .audio, timestamp := 6, data := some (.audioMeta ([1, 2] : List Nat).length) },
         { type := .audio, timestamp := 6, data := some (.audioMeta ([3] : List Nat).length) },
         { type := .content, timestamp := 6, data := some (.contentParts [textPart "hello"]) }] ∧
    (onMessage [] initialState (modelTurnMsg [audioPart [1, 2], textPart "hello", audioPart [3]]) 6).2
      = [Effect.streamerAddPCM16 [1, 2], Effect.streamerAddPCM16 [3]]) :=
  ⟨⟨by decide, by decide, by decide⟩,
   modelTurn_audio_text_audio [] initialState 6 [1, 2] [3] "hello"
     (by decide) (by decide) (by decide)⟩

/-- C3: an inbound tool-call message with two function calls, when the
aggregated batch collected from all registered providers yields function
responses for both calls, results in exactly one tool-response send over the
transport containing both responses, and appends exactly one corresponding
`client-toolResponse` log entry (after the `toolcall` entry logging the raw
request). -/
theorem toolCall_aggregated_response (ts : List CallableTool) (c : ClientState)
    (now : Nat) (fc1 fc2 : FunctionCall) (ps : List Part) (r1 r2 : FunctionResponse)
    (hsess : c.session.isSome = true) (hts : ts ≠ [])
    (hcollect : collectParts ts [fc1, fc2] = .ok ps)
    (hresp : ps.filterMap (fun p => p.functionResponse) = [r1, r2])
    (hid1 : r1.id = fc1.id) (hid2 : r2.id = fc2.id)
    (hlen : c.state.events.length ≤ 198) :
    (onMessage ts c (toolCallMsg [fc1, fc2]) now).1.state.events
      = c.state.events ++
        [{ type := .toolcall, timestamp := now, data := some (.toolCallData (some [fc1, fc2])) },
         { type := .clientToolResponse, timestamp := now, data := some (.toolResponseData [r1, r2]) }] ∧
    (onMessage ts c (toolCallMsg [fc1, fc2]) now).2 = [Effect.sendToolResponse [r1, r2]] := by
  obtain ⟨s, hs⟩ := Option.isSome_iff_exists.mp hsess
  have hlt : 0 < ts.length := List.length_pos.mpr hts
  have hne : ¬ ts.length = 0 := by omega
  have hps : 0 < ps.length := by
    cases hcases : ps with
    | nil => rw [hcases] at hresp; simp at hresp
    | cons a as => simp
  have hred : onMessage ts c (toolCallMsg [fc1, fc2]) now
      = (if ts.length > 0 then
          handleToolCalls ts (addEvent c .toolcall (some (.toolCallData (some [fc1, fc2]))) now)
            [fc1, fc2] now
        else (addEvent c .toolcall (some (.toolCallData (some [fc1, fc2]))) now, [])) := rfl
  rw [hred, if_pos hlt]
  have hc1sess : (addEvent c .toolcall (some (.toolCallData (some [fc1, fc2]))) now).session
      = some s := by rw [addEvent_session, hs]
  have htc : handleToolCalls ts (addEvent c .toolcall (some (.toolCallData (some [fc1, fc2]))) now)
      [fc1, fc2] now
      = (addEvent (addEvent c .toolcall (some (.toolCallData (some [fc1, fc2]))) now)
          .clientToolResponse (some (.toolResponseData [r1, r2])) now,
         [Effect.sendToolResponse [r1, r2]]) := by
    unfold handleToolCalls
    rw [hc1sess]
    dsimp only
    rw [if_neg hne, hcollect]
    dsimp only
    rw [if_pos hps, hresp]
    rfl
  rw [htc]
  have hT1 : (addEvent c .toolcall (some (.toolCallData (some [fc1, fc2]))) now).state.events
      = c.state.events ++
        [{ type := .toolcall, timestamp := now, data := some (.toolCallData (some [fc1, fc2])) }] :=
    addEvent_no_trim c .toolcall (some (.toolCallData (some [fc1, fc2]))) now (by omega)
  have hT2 : (addEvent (addEvent c .toolcall (some (.toolCallData (some [fc1, fc2]))) now)
        .clientToolResponse (some (.toolResponseData [r1, r2])) now).state.events
      = c.state.events ++
        [{ type := .toolcall, timestamp := now, data := some (.toolCallData (some [fc1, fc2])) },
         { type := .clientToolResponse, timestamp := now, data := some (.toolResponseData [r1, r2]) }] := by
    rw [addEvent_no_trim _ .clientToolResponse (some (.toolResponseData [r1, r2])) now
      (by rw [hT1]; simp; omega), hT1]
    simp
  exact ⟨hT2, rfl⟩

/-- Witness for C3: the single `echoTool` provider recognizes both calls of a
two-call batch on a connected client. -/
theorem toolCall_aggregated_response_witness :
    (connectedClient.session.isSome = true ∧ [echoTool] ≠ [] ∧
      collectParts [echoTool] [{ id := some "1", name := some "f", args := "x" }, { id := some "2", name := some "g", args := "y" }]
        = .ok [{ functionResponse := some { response := "ok", id := some "1", name := some "f" } }, { functionResponse := some { response := "ok", id := some "2", name := some "g" } }] ∧
      ([{ functionResponse := some { response := "ok", id := some "1", name := some "f" } }, { functionResponse := some { response := "ok", id := some "2", name := some "g" } }] : List Part).filterMap (fun p => p.functionResponse)
        = [{ response := "ok", id := some "1", name := some "f" }, { response := "ok", id := some "2", name := some "g" }] ∧
      ({ response := "ok", id := some "1", name := some "f" } : FunctionResponse).id
        = ({ id := some "1", name := some "f", args := "x" } : FunctionCall).id ∧
      ({ response := "ok", id := some "2", name := some "g" } : FunctionResponse).id
        = ({ id := some "2", name := some "g", args := "y" } : FunctionCall).id ∧
      connectedClient.state.events.length ≤ 198) ∧
    ((onMessage [echoTool] connectedClient (toolCallMsg [{ id := some "1", name := some "f", args := "x" }, { id := some "2", name := some "g", args := "y" }]) 8).1.state.events
      = connectedClient.state.events ++
        [{ type := .toolcall, timestamp := 8, data := some (.toolCallData (some [{ id := some "1", name := some "f", args := "x" }, { id := some "2", name := some "g", args := "y" }])) },
         { type := .clientToolResponse, timestamp := 8, data := some (.toolResponseData [{ response := "ok", id := some "1", name := some "f" }, { response := "ok", id := some "2", name := some "g" }]) }] ∧
    (onMessage [echoTool] connectedClient (toolCallMsg [{ id := some "1", name := some "f", args := "x" }, { id := some "2", name := some "g", args := "y" }]) 8).2
      = [Effect.sendToolResponse [{ response := "ok", id := some "1", name := some "f" }, { response := "ok", id := some "2", name := some "g" }]]) :=
  ⟨⟨rfl, by simp, rfl, by decide, by decide, by decide, by decide⟩,
   toolCall_aggregated_response [echoTool] connectedClient 8
     { id := some "1", name := some "f", args := "x" }
     { id := some "2", name := some "g", args := "y" }
     [{ functionResponse := some { response := "ok", id := some "1", name := some "f" } },
      { functionResponse := some { response := "ok", id := some "2", name := some "g" } }]
     { response := "ok", id := some "1", name := some "f" }
     { response := "ok", id := some "2", name := some "g" }
     rfl (by simp) rfl (by decide) (by decide) (by decide) (by decide)⟩

/-- C9 counterexample: the claim "every externally performed mutation of a
returned snapshot or of its log sequence leaves the client's internal state
unchanged" is false at a concrete input.  `getState()` returns
`{...this._state}`, whose `events` field is a reference to the very array
held internally, so an external in-place push through the returned
snapshot's log changes the client's internal log. -/
theorem snapshot_alias_counterexample :
    RefModel.internalEvents
        (RefModel.pushRef RefModel.heap0
          (RefModel.getStateRef RefModel.client0).eventsRef RefModel.probeEvent)
        RefModel.client0
      ≠ RefModel.internalEvents RefModel.heap0 RefModel.client0 := by
  decide

/-- C9 amended: the snapshot record is a copy only at the top level: its
scalar fields are copied by value, but its `events` field (and the value of
the `events` getter) is the same array reference as the internal state, so
an external in-place push through a returned log is visible in the client's
internal log; conversely the client's own appends allocate a fresh array and
never mutate a previously returned array in place. -/
theorem snapshot_shallow_copy (c : RefModel.RefClient) (h : RefModel.Heap)
    (e e' : LiveAPIEvent) (hvalid : c.stateRef.eventsRef < h.arrays.length) :
    (RefModel.getStateRef c).eventsRef = c.stateRef.eventsRef ∧
    RefModel.eventsGetter c = c.stateRef.eventsRef ∧
    RefModel.internalEvents (RefModel.pushRef h (RefModel.getStateRef c).eventsRef e) c
      = RefModel.internalEvents h c ++ [e] ∧
    RefModel.readRef (RefModel.addEventRef h c e').1 (RefModel.getStateRef c).eventsRef
      = RefModel.readRef h (RefModel.getStateRef c).eventsRef := by
  refine ⟨rfl, rfl, ?_, ?_⟩
  · unfold RefModel.internalEvents RefModel.pushRef RefModel.getStateRef RefModel.readRef
    dsimp only
    rw [List.getD_eq_getElem?_getD, List.getElem?_set_self hvalid]
    rfl
  · unfold RefModel.addEventRef RefModel.getStateRef RefModel.readRef
    dsimp only
    exact List.getD_append _ _ _ _ hvalid

/-- Witness for C9's amended claim at the concrete heap and client. -/
theorem snapshot_shallow_copy_witness :
    RefModel.client0.stateRef.eventsRef < RefModel.heap0.arrays.length ∧
    ((RefModel.getStateRef RefModel.client0).eventsRef = RefModel.client0.stateRef.eventsRef ∧
    RefModel.eventsGetter RefModel.client0 = RefModel.client0.stateRef.eventsRef ∧
    RefModel.internalEvents
        (RefModel.pushRef RefModel.heap0
          (RefModel.getStateRef RefModel.client0).eventsRef RefModel.probeEvent)
        RefModel.client0
      = RefModel.internalEvents RefModel.heap0 RefModel.client0 ++ [RefModel.probeEvent] ∧
    RefModel.readRef (RefModel.addEventRef RefModel.heap0 RefModel.client0 RefModel.probeEvent).1
        (RefModel.getStateRef RefModel.client0).eventsRef
      = RefModel.readRef RefModel.heap0 (RefModel.getStateRef RefModel.client0).eventsRef) :=
  ⟨by decide,
   snapshot_shallow_copy RefModel.client0 RefModel.heap0
     RefModel.probeEvent RefModel.probeEvent (by decide)⟩

end LiveAPI
